import Mathlib

/-!
Shallow embedding of the `reachability` crate (src/src/lib.rs).

The crate consists of two call-site-expanding reachability primitives,
`unreachable_static!` and `unreachable_unchecked!`, together with unwrap
extension operations on `Option<T>` and `Result<T, E>` built on top of
them.  Each expansion is modelled as a function from the build
configuration (the `static` cargo feature and the `debug_assertions`
cfg flag) to an `Outcome`: a normally returned value, a diagnostic
panic (with its optional message), a call to the deliberately undefined
external link symbol, or the undefined-behaviour compiler hint.

Rust's token-stream message argument (zero or more tokens forwarded to
`core::unreachable!`) is modelled as an `Option String`: `none` is the
empty token stream (default panic message), `some m` a supplied message.
Rust's `Result<T, E>` is modelled by Lean's `Except E T`, with
`Except.ok` for `Ok` and `Except.error` for `Err`.
-/

/-- Build configuration: the `static` cargo feature flag and the
`debug_assertions` compilation flag. -/
structure Config where
  staticMode : Bool
  debugAssertions : Bool
deriving DecidableEq, Repr

/-- Possible behaviours of an expanded reachability primitive:
return a value, raise a diagnostic panic with an optional message,
emit a call to an undefined external symbol (resolved at link time),
or emit the undefined-behaviour hint intrinsic. -/
inductive Outcome (α : Type) where
  | value (v : α)
  | panic (msg : Option String)
  | linkCall (sym : String)
  | ub
deriving DecidableEq, Repr

/-- The reserved, deliberately undefined external symbol named in the
`link_name` attribute of the `extern` block inside `unreachable_static!`. -/
def reservedSymbol : String := "___unreachable_static___"

/-- Model of `core::unreachable!(tokens)`: a diagnostic panic carrying
the supplied message, or the default one when the token stream is empty. -/
def coreUnreachable (α : Type) (msg : Option String) : Outcome α :=
  Outcome.panic msg

/-- Model of the `unreachable_static!(!: msg)` arm: the expansion declares
the extern function with `link_name = "___unreachable_static___"` and calls
it; the message expression does not occur in the expanded code. -/
def unreachable_static_forced (α : Type) (_cfg : Config) (_msg : String) :
    Outcome α :=
  Outcome.linkCall reservedSymbol

/-- Model of the `unreachable_static!(!)` arm, which expands to
`unreachable_static!(!: "")`. -/
def unreachable_static_bang (α : Type) (cfg : Config) : Outcome α :=
  unreachable_static_forced α cfg ""

/-- Model of `internal_unreachable_static!`: the crate gives it two
cfg-gated definitions.  Under `any(not(feature = "static"),
debug_assertions)` it forwards the tokens to `core::unreachable!`; under
`all(feature = "static", not(debug_assertions))` it expands to
`unreachable_static!(!)`. -/
def internal_unreachable_static (α : Type) (cfg : Config)
    (msg : Option String) : Outcome α :=
  if !cfg.staticMode || cfg.debugAssertions then coreUnreachable α msg
  else unreachable_static_bang α cfg

/-- Model of the general (non-forced) arm of `unreachable_static!`,
which forwards its tokens to `internal_unreachable_static!`. -/
def unreachable_static (α : Type) (cfg : Config) (msg : Option String) :
    Outcome α :=
  internal_unreachable_static α cfg msg

/-- Model of the `unreachable_unchecked!(!)` arm: it expands directly to
`core::hint::unreachable_unchecked()`, with no cfg gate. -/
def unreachable_unchecked_bang (α : Type) (_cfg : Config) : Outcome α :=
  Outcome.ub

/-- Model of the general arm of `unreachable_unchecked!`: under
`cfg(debug_assertions)` it calls an inline function whose body is
`core::unreachable!(tokens)`; under `cfg(not(debug_assertions))` it
expands to `unreachable_unchecked!(!)`. -/
def unreachable_unchecked (α : Type) (cfg : Config) (msg : Option String) :
    Outcome α :=
  if cfg.debugAssertions then coreUnreachable α msg
  else unreachable_unchecked_bang α cfg

/-- Model of `<Option<T> as OptionExt>::unwrap_static`: on `None` it
invokes `unreachable_static!()` (empty token stream); on `Some(v)` it
returns `v`. -/
def Option.unwrap_static {α : Type} (cfg : Config) : Option α → Outcome α
  | none => unreachable_static α cfg none
  | some v => Outcome.value v

/-- Model of `<Option<T> as OptionExt>::unwrap_unchecked`: on `None` it
invokes `unreachable_unchecked!()` (empty token stream); on `Some(v)` it
returns `v`. -/
def Option.unwrap_unchecked {α : Type} (cfg : Config) : Option α → Outcome α
  | none => unreachable_unchecked α cfg none
  | some v => Outcome.value v

/-- Model of `<Result<T, E> as OptionExt>::unwrap_static`: on `Err(_)` it
invokes `unreachable_static!()`, discarding the error; on `Ok(v)` it
returns `v`. -/
def Except.unwrap_static {ε α : Type} (cfg : Config) :
    Except ε α → Outcome α
  | Except.error _ => unreachable_static α cfg none
  | Except.ok v => Outcome.value v

/-- Model of `<Result<T, E> as OptionExt>::unwrap_unchecked`: on `Err(_)`
it invokes `unreachable_unchecked!()`, discarding the error; on `Ok(v)`
it returns `v`. -/
def Except.unwrap_unchecked {ε α : Type} (cfg : Config) :
    Except ε α → Outcome α
  | Except.error _ => unreachable_unchecked α cfg none
  | Except.ok v => Outcome.value v

/-- Model of `<Result<T, E> as ResultExt>::unwrap_err_static`: on `Ok(_)`
it invokes `unreachable_static!()`, discarding the success value; on
`Err(v)` it returns `v`. -/
def Except.unwrap_err_static {ε α : Type} (cfg : Config) :
    Except ε α → Outcome ε
  | Except.ok _ => unreachable_static ε cfg none
  | Except.error v => Outcome.value v

/-- Model of `<Result<T, E> as ResultExt>::unwrap_err_unchecked`: on
`Ok(_)` it invokes `unreachable_unchecked!()`, discarding the success
value; on `Err(v)` it returns `v`. -/
def Except.unwrap_err_unchecked {ε α : Type} (cfg : Config) :
    Except ε α → Outcome ε
  | Except.ok _ => unreachable_unchecked ε cfg none
  | Except.error v => Outcome.value v

/-- C1: for every optional-value container holding a value `v`, both
`unwrap_static` and `unwrap_unchecked` applied to `Some(v)` return
exactly `v`, in every build configuration. -/
theorem option_unwrap_some_returns_value (α : Type) (cfg : Config) (v : α) :
    Option.unwrap_static cfg (some v) = Outcome.value v
    ∧ Option.unwrap_unchecked cfg (some v) = Outcome.value v :=
  ⟨rfl, rfl⟩

/-- C2: for every result-value container holding an error `e`, both
`unwrap_err_static` and `unwrap_err_unchecked` applied to `Err(e)` return
exactly `e`, in every build configuration. -/
theorem result_unwrap_err_returns_error (ε α : Type) (cfg : Config) (e : ε) :
    Except.unwrap_err_static (α := α) cfg (Except.error e) = Outcome.value e
    ∧ Except.unwrap_err_unchecked (α := α) cfg (Except.error e)
        = Outcome.value e :=
  ⟨rfl, rfl⟩

/-- C3 counterexample: in debug configuration the `(!)` form of
`unreachable_unchecked!` is the undefined-behaviour intrinsic, not a
diagnostic panic, so it does not behave like the message-forwarding form
even when the latter carries no message at all. -/
theorem unchecked_bang_debug_not_panic :
    unreachable_unchecked_bang Unit (Config.mk false true) = Outcome.ub
    ∧ unreachable_unchecked Unit (Config.mk false true) none
        = Outcome.panic none
    ∧ unreachable_unchecked_bang Unit (Config.mk false true)
        ≠ unreachable_unchecked Unit (Config.mk false true) none := by
  refine ⟨rfl, rfl, ?_⟩
  decide

/-- C3 amended: the `(!)` form of `unreachable_unchecked!` is the
undefined-behaviour intrinsic in every configuration; the general
message-forwarding form coincides with it in non-debug configuration,
and in debug configuration raises a diagnostic panic carrying the
supplied message. -/
theorem unchecked_forms_relationship (α : Type) (cfg : Config)
    (msg : Option String) :
    unreachable_unchecked_bang α cfg = Outcome.ub
    ∧ (cfg.debugAssertions = false →
        unreachable_unchecked α cfg msg = unreachable_unchecked_bang α cfg)
    ∧ (cfg.debugAssertions = true →
        unreachable_unchecked α cfg msg = Outcome.panic msg) := by
  refine ⟨rfl, ?_, ?_⟩ <;> intro h <;>
    simp [unreachable_unchecked, unreachable_unchecked_bang,
      coreUnreachable, h]

/-- C3 amended witness at concrete configurations. -/
theorem unchecked_forms_relationship_witness :
    unreachable_unchecked Unit (Config.mk true false) (some "m")
        = unreachable_unchecked_bang Unit (Config.mk true false)
    ∧ unreachable_unchecked Unit (Config.mk true true) (some "m")
        = Outcome.panic (some "m") :=
  ⟨(unchecked_forms_relationship Unit (Config.mk true false)
      (some "m")).2.1 rfl,
   (unchecked_forms_relationship Unit (Config.mk true true)
      (some "m")).2.2 rfl⟩

/-- C4: when static-mode is disabled, or when debug assertions are on
even with static-mode requested, the non-forced `unreachable_static!`
behaves exactly like the checked diagnostic panic
`core::unreachable!(tokens)`. -/
theorem static_nonforced_checked_panic (α : Type) (cfg : Config)
    (msg : Option String)
    (h : cfg.staticMode = false ∨ cfg.debugAssertions = true) :
    unreachable_static α cfg msg = coreUnreachable α msg := by
  rcases h with h | h <;>
    simp [unreachable_static, internal_unreachable_static, h]

/-- C4 witness: with static-mode requested and debug assertions on, the
non-forced form is the diagnostic panic. -/
theorem static_nonforced_checked_panic_witness :
    unreachable_static Unit (Config.mk true true) (some "m")
      = coreUnreachable Unit (some "m") :=
  static_nonforced_checked_panic Unit (Config.mk true true) (some "m")
    (Or.inr rfl)

/-- C5: the forced form `unreachable_static!(!)` (and its
message-carrying variant) always expands to the call to the reserved
deliberately undefined external symbol, in every build configuration. -/
theorem static_forced_always_link_call (α : Type) (cfg : Config)
    (msg : String) :
    unreachable_static_bang α cfg = Outcome.linkCall reservedSymbol
    ∧ unreachable_static_forced α cfg msg
        = Outcome.linkCall reservedSymbol :=
  ⟨rfl, rfl⟩

/-- C6: when static-mode is enabled and debug assertions are off, the
non-forced `unreachable_static!` becomes exactly the forced form, i.e.
the call to the reserved undefined external symbol. -/
theorem static_nonforced_release_is_link_call (α : Type) (cfg : Config)
    (msg : Option String) (hs : cfg.staticMode = true)
    (hd : cfg.debugAssertions = false) :
    unreachable_static α cfg msg = unreachable_static_bang α cfg
    ∧ unreachable_static α cfg msg = Outcome.linkCall reservedSymbol := by
  constructor <;>
    simp [unreachable_static, internal_unreachable_static,
      unreachable_static_bang, unreachable_static_forced, hs, hd]

/-- C6 witness at the release-static configuration. -/
theorem static_nonforced_release_is_link_call_witness :
    unreachable_static Unit (Config.mk true false) (some "m")
        = unreachable_static_bang Unit (Config.mk true false)
    ∧ unreachable_static Unit (Config.mk true false) (some "m")
        = Outcome.linkCall reservedSymbol :=
  static_nonforced_release_is_link_call Unit (Config.mk true false)
    (some "m") rfl rfl

/-- C7: in a debug build, `unwrap_static` applied to `None` raises the
default diagnostic panic and never yields a returned value. -/
theorem option_unwrap_static_none_debug_panics (α : Type) (cfg : Config)
    (hd : cfg.debugAssertions = true) :
    Option.unwrap_static (α := α) cfg none = Outcome.panic none
    ∧ ∀ v : α, Option.unwrap_static cfg none ≠ Outcome.value v := by
  have h : Option.unwrap_static (α := α) cfg none = Outcome.panic none := by
    simp [Option.unwrap_static, unreachable_static,
      internal_unreachable_static, coreUnreachable, hd]
  exact ⟨h, fun v hv => by rw [h] at hv; exact Outcome.noConfusion hv⟩

/-- C7 witness at a concrete debug configuration. -/
theorem option_unwrap_static_none_debug_panics_witness :
    Option.unwrap_static (α := Unit) (Config.mk false true) none
        = Outcome.panic none
    ∧ ∀ v : Unit, Option.unwrap_static (Config.mk false true) none
        ≠ Outcome.value v :=
  option_unwrap_static_none_debug_panics Unit (Config.mk false true) rfl

/-- C8: in debug configuration, the message-forwarding form of
`unreachable_unchecked!` always raises a diagnostic panic carrying the
supplied message (or the default one when no message is supplied), and
never silently continues as the undefined-behaviour hint. -/
theorem unchecked_debug_always_panics (α : Type) (cfg : Config)
    (msg : Option String) (hd : cfg.debugAssertions = true) :
    unreachable_unchecked α cfg msg = Outcome.panic msg
    ∧ unreachable_unchecked α cfg msg ≠ Outcome.ub := by
  have h : unreachable_unchecked α cfg msg = Outcome.panic msg := by
    simp [unreachable_unchecked, coreUnreachable, hd]
  exact ⟨h, fun hv => by rw [h] at hv; exact Outcome.noConfusion hv⟩

/-- C8 witness at a concrete debug configuration with a concrete message. -/
theorem unchecked_debug_always_panics_witness :
    unreachable_unchecked Unit (Config.mk false true) (some "boom")
        = Outcome.panic (some "boom")
    ∧ unreachable_unchecked Unit (Config.mk false true) (some "boom")
        ≠ Outcome.ub :=
  unchecked_debug_always_panics Unit (Config.mk false true)
    (some "boom") rfl

/-- C9: result-value containers also provide `unwrap_static` and
`unwrap_unchecked`: on `Ok(v)` both return exactly `v`, and on `Err(_)`
they invoke the Static Reachability Assertion and the Unchecked
Reachability Hint respectively (each with an empty message). -/
theorem result_unwrap_ok_and_err (ε α : Type) (cfg : Config) (v : α)
    (e : ε) :
    Except.unwrap_static (ε := ε) cfg (Except.ok v) = Outcome.value v
    ∧ Except.unwrap_unchecked (ε := ε) cfg (Except.ok v) = Outcome.value v
    ∧ Except.unwrap_static (α := α) cfg (Except.error e)
        = unreachable_static α cfg none
    ∧ Except.unwrap_unchecked (α := α) cfg (Except.error e)
        = unreachable_unchecked α cfg none :=
  ⟨rfl, rfl, rfl, rfl⟩

/-- C10: the forced message-carrying form `unreachable_static!(!: msg)`
discards its message: for every message it expands to exactly the same
call to the reserved undefined external symbol as the no-message forced
form `unreachable_static!(!)`. -/
theorem static_forced_message_discarded (α : Type) (cfg : Config)
    (msg : String) :
    unreachable_static_forced α cfg msg = unreachable_static_bang α cfg :=
  rfl
